import Mathlib

/-!
Shallow embedding of the `and` application (src/src/lib.rs): a minimal
winit/wgpu skeleton that opens a window, builds one render pipeline, and
draws a single triangle while surviving suspend/resume cycles.

The embedding models the lifecycle controller (the closure passed to
`event_loop.run`), session construction (`State::new`), and the per-frame
render protocol.  External effects (winit window creation, wgpu adapter /
device / surface queries, image acquisition results) are supplied as
explicit environment data on the events that trigger them; GPU-facing
calls are recorded in an explicit trace of `GpuCall`s so that the claims
about call counts and ordering can be stated.
-/

namespace And

/-- A `wgpu::TextureFormat`, treated as an opaque identifier.  The code
never inspects the format beyond copying it around. -/
abbrev Format := Nat

/-- The `wgpu::TextureUsages` as used by the code (`RENDER_ATTACHMENT`
only, from line 82 of lib.rs). -/
inductive TextureUsage
  | renderAttachment
  deriving DecidableEq, Repr

/-- The `wgpu::PresentMode`; the code only ever uses `AutoVsync` (line 89). -/
inductive PresentMode
  | autoVsync
  | autoNoVsync
  | fifo
  deriving DecidableEq, Repr

/-- The `wgpu::CompositeAlphaMode`; the code only ever uses `Auto` (line 90). -/
inductive AlphaMode
  | auto
  | inherit
  deriving DecidableEq, Repr

/-- The `wgpu::SurfaceConfiguration` (lines 81-91): usage, format, size,
present mode and alpha mode.  Width and height are `u32` physical pixels;
no arithmetic is ever performed on them, so `Nat` is a faithful model. -/
structure SurfaceConfiguration where
  usage : TextureUsage
  format : Format
  width : Nat
  height : Nat
  presentMode : PresentMode
  alphaMode : AlphaMode
  deriving DecidableEq, Repr

/-- The `wgpu::PrimitiveTopology`; the pipeline uses `TriangleList` (line 117). -/
inductive PrimitiveTopology
  | pointList
  | lineList
  | triangleList
  | triangleStrip
  deriving DecidableEq, Repr

/-- The `wgpu::FrontFace`; the pipeline uses `Ccw` (line 119). -/
inductive FrontFace
  | ccw
  | cw
  deriving DecidableEq, Repr

/-- The `wgpu::Face` for culling; the pipeline uses `Some(Back)` (line 120). -/
inductive Face
  | front
  | back
  deriving DecidableEq, Repr

/-- The immutable graphics pipeline built by `device.create_render_pipeline`
(lines 99-132): fixed shader entry points, no vertex buffer layouts,
triangle-list topology, CCW front face, back-face culling, fill polygon
mode, no depth/stencil, single sample, replace blending, one colour target
whose format matches the surface configuration. -/
structure Pipeline where
  vertexEntryPoint : String
  fragmentEntryPoint : String
  vertexBufferLayouts : Nat
  topology : PrimitiveTopology
  frontFace : FrontFace
  cullMode : Option Face
  polygonFill : Bool
  depthStencil : Bool
  sampleCount : Nat
  blendReplace : Bool
  targetFormat : Format
  deriving DecidableEq, Repr

/-- Builds the fixed pipeline of `State::new` for a given surface format
(the descriptor literal at lines 99-132 of lib.rs). -/
def buildPipeline (format : Format) : Pipeline :=
  { vertexEntryPoint := "vs_main"
    fragmentEntryPoint := "fs_main"
    vertexBufferLayouts := 0
    topology := .triangleList
    frontFace := .ccw
    cullMode := some .back
    polygonFill := true
    depthStencil := false
    sampleCount := 1
    blendReplace := true
    targetFormat := format }

/-- The `wgpu::Color`, with exact rational components standing in for the
`f64` literals; the code uses the single literal
`Color { r: 0.1, g: 0.2, b: 0.3, a: 1.0 }` (line 213) and never computes
with it, so exact rationals are faithful. -/
structure Color where
  r : Rat
  g : Rat
  b : Rat
  a : Rat
  deriving DecidableEq, Repr

/-- The fixed clear colour of the render pass (line 213). -/
def backgroundColor : Color :=
  { r := 1/10, g := 2/10, b := 3/10, a := 1 }

/-- The session bundle `State` (lines 24-31): window, surface, surface
configuration, device, queue, pipeline.  The window is represented by its
identity (`window.id()`), which is all the event handler ever compares;
surface, device and queue are opaque handles carried by the session and
are not further modelled. -/
structure Session where
  windowId : Nat
  config : SurfaceConfiguration
  pipeline : Pipeline
  deriving DecidableEq, Repr

/-- One GPU-facing (or redraw-scheduling) call made by the program,
recorded in order of occurrence. -/
inductive GpuCall
  | requestRedraw
  | configure (config : SurfaceConfiguration)
  | acquire
  | createView
  | beginRenderPass (clearColor : Color)
  | setPipeline (pipeline : Pipeline)
  | setVertexBuffer
  | draw (vertexStart vertexEnd instanceStart instanceEnd : Nat)
  | endRenderPass
  | submit (bufferCount : Nat)
  | present
  deriving DecidableEq, Repr

/-- Outcome of the icon-loading closure at lines 38-56: on Android the
closure returns `None` without touching any asset (`absent`); on other
targets it decodes the embedded PNG (`decoded`, or `decodeFailed` when
`load_from_memory_with_format` errors) and converts it with
`Icon::from_rgba` (`fromRgbaFailed` when that errors). -/
inductive IconOutcome
  | absent
  | decoded
  | decodeFailed
  | fromRgbaFailed
  deriving DecidableEq, Repr

/-- The ways `State::new` can abort the process: each corresponds to an
`.expect(..)` panic or (for `formatIndexOutOfBounds`) the unchecked
indexing `surface.get_supported_formats(&adapter)[0]` at line 84. -/
inductive InitError
  | iconLoadFailed
  | windowCreateFailed
  | noAdapter
  | deviceRequestFailed
  | formatIndexOutOfBounds
  deriving DecidableEq, Repr

/-- The icon-loading closure (lines 38-56) as it affects control flow:
`absent` and `decoded` proceed (returning `None` / `Some(icon)`), while a
decode or conversion failure hits `.expect` and aborts. -/
def loadIcon : IconOutcome → Except InitError Bool
  | .absent => .ok false
  | .decoded => .ok true
  | .decodeFailed => .error .iconLoadFailed
  | .fromRgbaFailed => .error .iconLoadFailed

/-- An adapter as seen by this program: the only query made of it is
`surface.get_supported_formats(&adapter)`, so it is modelled by that
format list (in adapter-reported order). -/
structure Adapter where
  supportedFormats : List Format
  deriving DecidableEq, Repr

/-- The `wgpu::Instance` as seen by this program: the result of
`request_adapter` with default power preference and this surface as
`compatible_surface` (`defaultAdapter`, `None` when the platform returns
no adapter), and the `enumerate_adapters(Backends::all())` list in
backend-reported order. -/
structure Instance where
  defaultAdapter : Option Adapter
  adapters : List Adapter
  deriving DecidableEq, Repr

/-- Adapter selection (lines 63-72): `request_adapter(..)` first, then
`.or_else(|| enumerate_adapters(..).filter(|a| !surface.get_supported_formats(a).is_empty()).next())`. -/
def selectAdapter (inst : Instance) : Option Adapter :=
  match inst.defaultAdapter with
  | some adapter => some adapter
  | none => (inst.adapters.filter fun a => !a.supportedFormats.isEmpty).head?

/-- The environment consumed by one `State::new` call: the icon-loading
outcome, whether `WindowBuilder::build` succeeds, the new window's
identity and `inner_size()`, the wgpu instance data, and whether
`request_device` succeeds. -/
structure Env where
  icon : IconOutcome
  windowOk : Bool
  windowId : Nat
  innerWidth : Nat
  innerHeight : Nat
  inst : Instance
  deviceOk : Bool
  deriving DecidableEq, Repr

/-- Session construction, `State::new` (lines 34-135).  Order of effects
follows the source:
icon closure, window build, `inner_size()`, adapter selection, device
request, `get_supported_formats(&adapter)[0]`, configuration literal,
`surface.configure(&device, &config)`, pipeline build.  Each `.expect`
(and the unchecked `[0]`) is an `InitError`; on success the new session is
returned together with the GPU calls made (the one `surface.configure`). -/
def State.new (env : Env) : Except InitError (Session × List GpuCall) :=
  match loadIcon env.icon with
  | .error e => .error e
  | .ok _hasIcon =>
    if env.windowOk then
      match selectAdapter env.inst with
      | none => .error .noAdapter
      | some adapter =>
        if env.deviceOk then
          match adapter.supportedFormats.head? with
          | none => .error .formatIndexOutOfBounds
          | some format =>
            let config : SurfaceConfiguration :=
              { usage := .renderAttachment
                format := format
                width := env.innerWidth
                height := env.innerHeight
                presentMode := .autoVsync
                alphaMode := .auto }
            .ok ({ windowId := env.windowId
                   config := config
                   pipeline := buildPipeline config.format },
                 [.configure config])
        else .error .deviceRequestFailed
    else .error .windowCreateFailed

/-- The `WindowEvent`s the handler distinguishes (lines 172-182):
`Resized`, `CloseRequested`, and the catch-all `_ => {}` arm. -/
inductive WinEvent
  | resized (width height : Nat)
  | closeRequested
  | other
  deriving DecidableEq, Repr

/-- Result of `surface.get_current_texture()` (line 188): success, or a
`wgpu::SurfaceError` classified as `Lost`, `OutOfMemory`, or any other
kind (`Outdated` / `Timeout`, the `e => log::error!` arm at line 194). -/
inductive AcquireResult
  | success
  | lost
  | outOfMemory
  | otherFailure
  deriving DecidableEq, Repr

/-- One event delivered by the event loop, together with the environment
data the handler would obtain from the platform while processing it
(`Env` for `Resumed`, the acquisition outcome for `RedrawRequested`). -/
inductive Event
  | newEventsInit
  | resumed (env : Env)
  | suspended
  | windowEvent (windowId : Nat) (ev : WinEvent)
  | redrawRequested (windowId : Nat) (acquired : AcquireResult)
  | loopDestroyed
  | other
  deriving DecidableEq, Repr

/-- The `winit::event_loop::ControlFlow` as used by the handler: `Wait`
(set unconditionally at the top of every iteration, line 153) or
`ExitWithCode` (lines 180 and 193). -/
inductive ControlFlow
  | wait
  | exitWithCode (code : Nat)
  deriving DecidableEq, Repr

/-- Result of one handler invocation: the new `state` option and control
flow plus the GPU calls made, or a process abort from a panicking
`State::new`. -/
inductive StepResult
  | ok (state : Option Session) (cf : ControlFlow) (calls : List GpuCall)
  | aborted (err : InitError)
  deriving DecidableEq, Repr

/-- The event-handler closure passed to `event_loop.run` (lines 152-233),
for a single event.  `state : Option Session` is the captured `state`
variable; the control flow starts each invocation as `Wait` (line 153). -/
def handleEvent (state : Option Session) (event : Event) : StepResult :=
  match event with
  | .newEventsInit => .ok state .wait []
  | .resumed env =>
    match state with
    | none =>
      match State.new env with
      | .ok (st, calls) => .ok (some st) .wait (calls ++ [.requestRedraw])
      | .error e => .aborted e
    | some st => .ok (some st) .wait []
  | .suspended => .ok none .wait []
  | .windowEvent windowId ev =>
    match state with
    | none => .ok none .wait []
    | some st =>
      if windowId ≠ st.windowId then .ok (some st) .wait []
      else
        match ev with
        | .resized width height =>
          if width = 0 ∨ height = 0 then .ok (some st) .wait []
          else
            let config := { st.config with width := width, height := height }
            .ok (some { st with config := config }) .wait [.configure config]
        | .closeRequested => .ok (some st) (.exitWithCode 0) []
        | .other => .ok (some st) .wait []
  | .redrawRequested windowId acquired =>
    match state with
    | none => .ok none .wait []
    | some st =>
      if windowId ≠ st.windowId then .ok (some st) .wait []
      else
        match acquired with
        | .success =>
          .ok (some st) .wait
            [.acquire, .createView, .beginRenderPass backgroundColor,
             .setPipeline st.pipeline, .draw 0 3 0 1, .endRenderPass,
             .submit 1, .present]
        | .lost => .ok (some st) .wait [.acquire, .configure st.config]
        | .outOfMemory => .ok (some st) (.exitWithCode 1) [.acquire]
        | .otherFailure => .ok (some st) .wait [.acquire]
  | .loopDestroyed => .ok none .wait []
  | .other => .ok state .wait []

/-- Outcome of running the event loop over a finite event sequence:
events exhausted, loop exited via `ControlFlow::ExitWithCode`, or process
aborted by a construction panic. -/
inductive RunOutcome
  | finished (state : Option Session)
  | exited (code : Nat)
  | aborted (err : InitError)
  deriving DecidableEq, Repr

/-- The event loop (`event_loop.run`): dispatch events in order, stop as
soon as an iteration ends with `ExitWithCode` (the loop then terminates
with that code) or the handler aborts; returns the outcome and the full
GPU-call trace. -/
def runLoop (state : Option Session) : List Event → RunOutcome × List GpuCall
  | [] => (.finished state, [])
  | e :: rest =>
    match handleEvent state e with
    | .aborted err => (.aborted err, [])
    | .ok st cf calls =>
      match cf with
      | .exitWithCode code => (.exited code, calls)
      | .wait =>
        let (outcome, more) := runLoop st rest
        (outcome, calls ++ more)

/-- The controller state reached after dispatching a finite event
sequence from a given state (stopping early on exit or abort, at which
point the last-held state is returned); used to express reachability. -/
def execLoop (state : Option Session) : List Event → Option Session
  | [] => state
  | e :: rest =>
    match handleEvent state e with
    | .aborted _ => state
    | .ok st cf _ =>
      match cf with
      | .exitWithCode _ => st
      | .wait => execLoop st rest

/-- Number of `configure` (surface reconfiguration) calls in a trace. -/
def countConfigure : List GpuCall → Nat
  | [] => 0
  | .configure _ :: rest => countConfigure rest + 1
  | _ :: rest => countConfigure rest

/-- Number of `acquire` (`get_current_texture`) calls in a trace. -/
def countAcquire : List GpuCall → Nat
  | [] => 0
  | .acquire :: rest => countAcquire rest + 1
  | _ :: rest => countAcquire rest

/-- Number of `draw` calls in a trace. -/
def countDraw : List GpuCall → Nat
  | [] => 0
  | .draw _ _ _ _ :: rest => countDraw rest + 1
  | _ :: rest => countDraw rest

/-- Number of queue submissions in a trace. -/
def countSubmit : List GpuCall → Nat
  | [] => 0
  | .submit _ :: rest => countSubmit rest + 1
  | _ :: rest => countSubmit rest

/-- Number of `present` calls in a trace. -/
def countPresent : List GpuCall → Nat
  | [] => 0
  | .present :: rest => countPresent rest + 1
  | _ :: rest => countPresent rest

/-- Number of render passes begun in a trace. -/
def countBeginPass : List GpuCall → Nat
  | [] => 0
  | .beginRenderPass _ :: rest => countBeginPass rest + 1
  | _ :: rest => countBeginPass rest

/-- Number of vertex-buffer bindings in a trace. -/
def countSetVertexBuffer : List GpuCall → Nat
  | [] => 0
  | .setVertexBuffer :: rest => countSetVertexBuffer rest + 1
  | _ :: rest => countSetVertexBuffer rest

/-- Number of `request_redraw` calls in a trace. -/
def countRequestRedraw : List GpuCall → Nat
  | [] => 0
  | .requestRedraw :: rest => countRequestRedraw rest + 1
  | _ :: rest => countRequestRedraw rest

/-- A concrete adapter reporting two supported formats, used to
instantiate theorems at concrete inputs. -/
def goodAdapter : Adapter := { supportedFormats := [0, 1] }

/-- An adapter whose supported-format list for this surface is empty. -/
def emptyAdapter : Adapter := { supportedFormats := [] }

/-- A concrete instance whose default-power-preference adapter request
succeeds. -/
def goodInstance : Instance :=
  { defaultAdapter := some goodAdapter, adapters := [goodAdapter] }

/-- A concrete environment on which `State.new` succeeds. -/
def goodEnv : Env :=
  { icon := .absent
    windowOk := true
    windowId := 7
    innerWidth := 800
    innerHeight := 600
    inst := goodInstance
    deviceOk := true }

/-- The surface configuration built by `State.new goodEnv`. -/
def goodConfig : SurfaceConfiguration :=
  { usage := .renderAttachment
    format := 0
    width := 800
    height := 600
    presentMode := .autoVsync
    alphaMode := .auto }

/-- The session returned by `State.new goodEnv`. -/
def goodSession : Session :=
  { windowId := 7, config := goodConfig, pipeline := buildPipeline 0 }

/-- A concrete fallback scenario: no default adapter, and the enumeration
lists an adapter with no supported formats before one with formats. -/
def fallbackInstance : Instance :=
  { defaultAdapter := none, adapters := [emptyAdapter, goodAdapter] }

/-- A concrete environment whose adapter comes from the fallback
enumeration path. -/
def fallbackEnv : Env :=
  { goodEnv with inst := fallbackInstance }

/-- A concrete environment in which no compatible adapter exists at all. -/
def noAdapterEnv : Env :=
  { goodEnv with inst := { defaultAdapter := none, adapters := [emptyAdapter] } }

/-- A concrete environment whose icon asset fails to decode. -/
def iconFailEnv : Env :=
  { goodEnv with icon := .decodeFailed }

/-- A concrete environment whose default power-preference adapter reports
no supported formats, although the enumeration holds a usable adapter. -/
def defaultTrapEnv : Env :=
  { goodEnv with
      inst := { defaultAdapter := some emptyAdapter, adapters := [goodAdapter] } }

/-- A concrete environment whose window reports an inner size of 0 x 600
at resume time. -/
def zeroWidthEnv : Env :=
  { goodEnv with innerWidth := 0 }

/-- The session installed by resuming in `zeroWidthEnv`: its stored
configuration has width 0. -/
def zeroWidthSession : Session :=
  { windowId := 7
    config := { usage := .renderAttachment
                format := 0
                width := 0
                height := 600
                presentMode := .autoVsync
                alphaMode := .auto }
    pipeline := buildPipeline 0 }

/-- The GPU calls of one successful frame of the render protocol
(lines 201-225): acquire, view creation, one render pass clearing the
colour target to the background colour, binding the session's pipeline,
one `draw(0..3, 0..1)`, end of pass, one submission of the single
finished command buffer, and presentation of the acquired image. -/
def frameTrace (st : Session) : List GpuCall :=
  [.acquire, .createView, .beginRenderPass backgroundColor,
   .setPipeline st.pipeline, .draw 0 3 0 1, .endRenderPass,
   .submit 1, .present]

/-- The stored surface configuration, when one exists, has positive width
and height. -/
def sessionDimsPositive : Option Session → Prop
  | none => True
  | some st => 0 < st.config.width ∧ 0 < st.config.height

/-- C1: at most one Session ever exists — the controller holds a single
optional slot — and the transitions behave as claimed: a `Resumed` event
with no Session installs exactly the one session built by `State::new`
(requesting one redraw), a `Resumed` event with a live Session is a no-op,
and `Suspended` always leaves no Session; repeating either event is
therefore idempotent. -/
theorem c1_single_session_lifecycle
    (env : Env) (st cur : Session) (s : Option Session) (calls : List GpuCall)
    (h : State.new env = .ok (st, calls)) :
    handleEvent none (Event.resumed env) =
      StepResult.ok (some st) ControlFlow.wait (calls ++ [GpuCall.requestRedraw])
    ∧ handleEvent (some cur) (Event.resumed env) =
      StepResult.ok (some cur) ControlFlow.wait []
    ∧ handleEvent s Event.suspended = StepResult.ok none ControlFlow.wait [] := by
  refine ⟨?_, rfl, rfl⟩
  simp [handleEvent, h]

/-- Witness for C1 at a concrete environment on which construction
succeeds. -/
theorem c1_single_session_lifecycle_witness :
    handleEvent none (Event.resumed goodEnv) =
      StepResult.ok (some goodSession) ControlFlow.wait
        ([GpuCall.configure goodConfig] ++ [GpuCall.requestRedraw])
    ∧ handleEvent (some goodSession) (Event.resumed goodEnv) =
      StepResult.ok (some goodSession) ControlFlow.wait []
    ∧ handleEvent (some goodSession) Event.suspended =
      StepResult.ok none ControlFlow.wait [] :=
  c1_single_session_lifecycle goodEnv goodSession goodSession (some goodSession)
    [GpuCall.configure goodConfig] (by rfl)

/-- C2: on a redraw for a live Session whose image acquisition fails
classified `Lost`, the handler makes exactly one surface reconfiguration
call using the stored configuration unchanged, zero draw/submit/present
calls for that frame, and schedules no redraw itself — recovery is
attempted once and deferred to the next natural redraw; the session is
left unchanged. -/
theorem c2_lost_reconfigure_once (st : Session) :
    handleEvent (some st) (Event.redrawRequested st.windowId AcquireResult.lost) =
      StepResult.ok (some st) ControlFlow.wait
        [GpuCall.acquire, GpuCall.configure st.config]
    ∧ countConfigure [GpuCall.acquire, GpuCall.configure st.config] = 1
    ∧ countDraw [GpuCall.acquire, GpuCall.configure st.config] = 0
    ∧ countSubmit [GpuCall.acquire, GpuCall.configure st.config] = 0
    ∧ countPresent [GpuCall.acquire, GpuCall.configure st.config] = 0
    ∧ countRequestRedraw [GpuCall.acquire, GpuCall.configure st.config] = 0 := by
  refine ⟨?_, rfl, rfl, rfl, rfl, rfl⟩
  simp [handleEvent]

/-- C3: on a redraw for a live Session whose image acquisition fails
classified `OutOfMemory`, the loop terminates with exit code 1 and —
whatever events were still queued — the only call at or after the failed
acquisition is that failed acquisition itself: no draw, submit, present,
or further acquire happens in the rest of the run. -/
theorem c3_oom_exits_one (st : Session) (rest : List Event) :
    runLoop (some st)
        (Event.redrawRequested st.windowId AcquireResult.outOfMemory :: rest) =
      (RunOutcome.exited 1, [GpuCall.acquire])
    ∧ countDraw [GpuCall.acquire] = 0
    ∧ countSubmit [GpuCall.acquire] = 0
    ∧ countPresent [GpuCall.acquire] = 0 := by
  refine ⟨?_, rfl, rfl, rfl⟩
  simp [runLoop, handleEvent]

/-- C6: with no Session present, any window event (resize included) and
any redraw request produce zero GPU calls and leave the controller state
unchanged. -/
theorem c6_no_session_ignores (wid : Nat) (we : WinEvent) (acq : AcquireResult) :
    handleEvent none (Event.windowEvent wid we) =
      StepResult.ok none ControlFlow.wait []
    ∧ handleEvent none (Event.redrawRequested wid acq) =
      StepResult.ok none ControlFlow.wait [] :=
  ⟨rfl, rfl⟩

/-- C4: while a Session exists, a `Resized` event on the Session's window
carrying a zero dimension leaves the stored configuration (and the whole
session) unchanged and makes no reconfiguration call; a resize with both
dimensions positive stores exactly those dimensions and makes exactly one
reconfiguration call carrying them. -/
theorem c4_resize_behavior (st : Session) (w h : Nat) :
    (w = 0 ∨ h = 0 →
      handleEvent (some st) (Event.windowEvent st.windowId (WinEvent.resized w h)) =
        StepResult.ok (some st) ControlFlow.wait [])
    ∧ (0 < w → 0 < h →
      handleEvent (some st) (Event.windowEvent st.windowId (WinEvent.resized w h)) =
        StepResult.ok
          (some { st with config := { st.config with width := w, height := h } })
          ControlFlow.wait
          [GpuCall.configure { st.config with width := w, height := h }]
      ∧ countConfigure
          [GpuCall.configure { st.config with width := w, height := h }] = 1) := by
  constructor
  · rintro (rfl | rfl) <;> simp [handleEvent]
  · intro hw hh
    have hw' : w ≠ 0 := Nat.pos_iff_ne_zero.mp hw
    have hh' : h ≠ 0 := Nat.pos_iff_ne_zero.mp hh
    refine ⟨?_, rfl⟩
    simp [handleEvent, hw', hh']

/-- Witness for C4 at a concrete session, for one zero-dimension resize
and one positive resize. -/
theorem c4_resize_behavior_witness :
    handleEvent (some goodSession)
        (Event.windowEvent goodSession.windowId (WinEvent.resized 0 300)) =
      StepResult.ok (some goodSession) ControlFlow.wait []
    ∧ (handleEvent (some goodSession)
          (Event.windowEvent goodSession.windowId (WinEvent.resized 400 300)) =
        StepResult.ok
          (some { goodSession with
                    config := { goodSession.config with width := 400, height := 300 } })
          ControlFlow.wait
          [GpuCall.configure
            { goodSession.config with width := 400, height := 300 }]
      ∧ countConfigure
          [GpuCall.configure
            { goodSession.config with width := 400, height := 300 }] = 1) :=
  ⟨(c4_resize_behavior goodSession 0 300).1 (Or.inl rfl),
   (c4_resize_behavior goodSession 400 300).2 (by decide) (by decide)⟩

/-- C5: on a redraw for a live Session with successful acquisition, the
handler records exactly one render pass — clearing to the fixed background
colour, binding the Session's pipeline, one draw of vertex range 0..3 and
instance range 0..1, with no vertex buffer ever bound — and the trace
decomposes as recording, then the single one-buffer submission, then the
presentation, so recording completes before the submit, which precedes the
present of the same frame. -/
theorem c5_success_frame_protocol (st : Session) :
    handleEvent (some st) (Event.redrawRequested st.windowId AcquireResult.success) =
      StepResult.ok (some st) ControlFlow.wait (frameTrace st)
    ∧ frameTrace st =
        [GpuCall.acquire, GpuCall.createView, GpuCall.beginRenderPass backgroundColor,
         GpuCall.setPipeline st.pipeline, GpuCall.draw 0 3 0 1, GpuCall.endRenderPass]
        ++ [GpuCall.submit 1] ++ [GpuCall.present]
    ∧ countBeginPass (frameTrace st) = 1
    ∧ countDraw (frameTrace st) = 1
    ∧ countSubmit (frameTrace st) = 1
    ∧ countPresent (frameTrace st) = 1
    ∧ countSetVertexBuffer (frameTrace st) = 0
    ∧ countSubmit
        [GpuCall.acquire, GpuCall.createView, GpuCall.beginRenderPass backgroundColor,
         GpuCall.setPipeline st.pipeline, GpuCall.draw 0 3 0 1,
         GpuCall.endRenderPass] = 0
    ∧ countPresent
        [GpuCall.acquire, GpuCall.createView, GpuCall.beginRenderPass backgroundColor,
         GpuCall.setPipeline st.pipeline, GpuCall.draw 0 3 0 1,
         GpuCall.endRenderPass] = 0 := by
  refine ⟨?_, rfl, rfl, rfl, rfl, rfl, rfl, rfl, rfl⟩
  simp [handleEvent, frameTrace]

/-- Taking the head of a filtered list is finding the first element
satisfying the predicate (Rust's `.filter(p).next()` idiom). -/
theorem head?_filter_eq_find? {α : Type} (p : α → Bool) :
    ∀ l : List α, (l.filter p).head? = l.find? p := by
  intro l
  induction l with
  | nil => rfl
  | cons x xs ih =>
    by_cases h : p x
    · simp [List.filter_cons, List.find?_cons, h]
    · simp [List.filter_cons, List.find?_cons, h, ih]

/-- C7: adapter selection first takes the system default power-preference
adapter when one is returned; otherwise it falls back to the first
enumerated adapter, in backend-reported order, whose supported-format
list for this surface is non-empty; and when no adapter is selected,
session construction never succeeds — the process aborts before the event
loop ever sees a session. -/
theorem c7_adapter_preference (inst : Instance) (a : Adapter) (env : Env) :
    (inst.defaultAdapter = some a → selectAdapter inst = some a)
    ∧ (inst.defaultAdapter = none →
        selectAdapter inst =
          inst.adapters.find? fun ad => !ad.supportedFormats.isEmpty)
    ∧ (inst.defaultAdapter = none → selectAdapter inst = some a →
        a ∈ inst.adapters ∧ a.supportedFormats ≠ [])
    ∧ (selectAdapter env.inst = none →
        ∀ st calls, State.new env ≠ .ok (st, calls)) := by
  refine ⟨?_, ?_, ?_, ?_⟩
  · intro h
    simp [selectAdapter, h]
  · intro h
    simp [selectAdapter, h, head?_filter_eq_find?]
  · intro hnone hsel
    rw [selectAdapter, hnone, head?_filter_eq_find?] at hsel
    refine ⟨List.mem_of_find?_eq_some hsel, ?_⟩
    have hp := List.find?_some hsel
    simpa using hp
  · intro hsel st calls hok
    unfold State.new at hok
    rw [hsel] at hok
    cases hI : loadIcon env.icon <;> rw [hI] at hok <;>
      cases hw : env.windowOk <;> simp [hw] at hok

/-- Witness for C7: the default adapter is taken when present; with no
default adapter the first enumerated adapter with formats is taken (the
format-less one is skipped); with no compatible adapter at all,
construction fails. -/
theorem c7_adapter_preference_witness :
    selectAdapter goodInstance = some goodAdapter
    ∧ selectAdapter fallbackInstance =
        (fallbackInstance.adapters.find? fun ad => !ad.supportedFormats.isEmpty)
    ∧ (goodAdapter ∈ fallbackInstance.adapters
        ∧ goodAdapter.supportedFormats ≠ [])
    ∧ (∀ st calls, State.new noAdapterEnv ≠ .ok (st, calls)) :=
  ⟨(c7_adapter_preference goodInstance goodAdapter goodEnv).1 rfl,
   (c7_adapter_preference fallbackInstance goodAdapter goodEnv).2.1 rfl,
   (c7_adapter_preference fallbackInstance goodAdapter goodEnv).2.2.1 rfl (by decide),
   (c7_adapter_preference fallbackInstance goodAdapter noAdapterEnv).2.2.2 (by decide)⟩

/-- Inversion for successful session construction: the session is exactly
the bundle built from the selected adapter's first supported format and
the window's reported size, and the construction trace is the single
`surface.configure` call. -/
theorem State.new_ok_inv (env : Env) (st : Session) (calls : List GpuCall)
    (h : State.new env = .ok (st, calls)) :
    ∃ adapter format,
      selectAdapter env.inst = some adapter
      ∧ adapter.supportedFormats.head? = some format
      ∧ st = { windowId := env.windowId
               config := { usage := .renderAttachment
                           format := format
                           width := env.innerWidth
                           height := env.innerHeight
                           presentMode := .autoVsync
                           alphaMode := .auto }
               pipeline := buildPipeline format }
      ∧ calls = [GpuCall.configure st.config] := by
  unfold State.new at h
  cases hI : loadIcon env.icon <;> rw [hI] at h
  · exact absurd h (by simp)
  · cases hw : env.windowOk <;> simp only [hw, Bool.false_eq_true,
      if_false, if_true, reduceIte] at h
    · exact absurd h (by simp)
    · cases hA : selectAdapter env.inst <;> rw [hA] at h
      · exact absurd h (by simp)
      · rename_i adapter
        cases hd : env.deviceOk <;> simp only [hd, Bool.false_eq_true,
          if_false, if_true, reduceIte] at h
        · exact absurd h (by simp)
        · cases hF : adapter.supportedFormats.head? <;> rw [hF] at h
          · exact absurd h (by simp)
          · rename_i format
            refine ⟨adapter, format, rfl, hF, ?_⟩
            simp only [Except.ok.injEq, Prod.mk.injEq] at h
            obtain ⟨hst, hcalls⟩ := h
            subst hst
            subst hcalls
            exact ⟨rfl, rfl⟩

/-- One handler step preserves positive stored dimensions, provided any
`Resumed` event in it observes a window of positive inner size. -/
theorem handleEvent_dims_positive
    (s : Option Session) (e : Event) (s' : Option Session)
    (cf : ControlFlow) (calls : List GpuCall)
    (hstep : handleEvent s e = .ok s' cf calls)
    (hs : sessionDimsPositive s)
    (henv : ∀ env, e = Event.resumed env →
      0 < env.innerWidth ∧ 0 < env.innerHeight) :
    sessionDimsPositive s' := by
  cases e with
  | newEventsInit => cases hstep; exact hs
  | resumed env =>
    cases s with
    | none =>
      simp only [handleEvent] at hstep
      cases hnew : State.new env <;> rw [hnew] at hstep
      · cases hstep
      · rename_i pair
        obtain ⟨stNew, callsNew⟩ := pair
        cases hstep
        obtain ⟨ad, fmt, -, -, hst, -⟩ := State.new_ok_inv env stNew callsNew hnew
        subst hst
        exact henv env rfl
    | some st =>
      cases hstep
      exact hs
  | suspended => cases hstep; trivial
  | windowEvent wid we =>
    cases s with
    | none => cases hstep; trivial
    | some st =>
      simp only [handleEvent] at hstep
      split at hstep
      · cases hstep
        exact hs
      · split at hstep
        · split at hstep
          · cases hstep
            exact hs
          · cases hstep
            rename_i w h hz
            push_neg at hz
            exact ⟨Nat.pos_of_ne_zero hz.1, Nat.pos_of_ne_zero hz.2⟩
        · cases hstep
          exact hs
        · cases hstep
          exact hs
  | redrawRequested wid acq =>
    cases s with
    | none => cases hstep; trivial
    | some st =>
      simp only [handleEvent] at hstep
      split at hstep
      · cases hstep
        exact hs
      · split at hstep <;> cases hstep <;> exact hs
  | loopDestroyed => cases hstep; trivial
  | other => cases hstep; exact hs

/-- Running the loop preserves positive stored dimensions whenever every
`Resumed` event in the sequence observes a positive window size. -/
theorem execLoop_dims_positive :
    ∀ (events : List Event) (s : Option Session),
      sessionDimsPositive s →
      (∀ env, Event.resumed env ∈ events →
        0 < env.innerWidth ∧ 0 < env.innerHeight) →
      sessionDimsPositive (execLoop s events) := by
  intro events
  induction events with
  | nil =>
    intro s hs _
    exact hs
  | cons e rest ih =>
    intro s hs h
    unfold execLoop
    cases hstep : handleEvent s e with
    | aborted err => exact hs
    | ok st cf calls =>
      have hst : sessionDimsPositive st :=
        handleEvent_dims_positive s e st cf calls hstep hs
          (fun env he => h env (by rw [he]; exact List.mem_cons_self _ _))
      cases cf with
      | wait => exact ih st hst fun env hm => h env (List.mem_cons_of_mem _ hm)
      | exitWithCode code => exact hst

/-- C8 (amended): provided every `Resumed` event observes a window whose
reported physical size is positive in both dimensions, every controller
state reachable by any event sequence stores a configuration with
positive width and height — the initial build copies the (positive)
window size, and no later event ever stores a zero, a resize carrying 0
in either dimension never being written. -/
theorem c8_config_dims_positive (events : List Event)
    (h : ∀ env, Event.resumed env ∈ events →
      0 < env.innerWidth ∧ 0 < env.innerHeight) :
    sessionDimsPositive (execLoop none events) :=
  execLoop_dims_positive events none trivial h

/-- Witness for C8 (amended) on a one-event run whose window size is
800 x 600. -/
theorem c8_config_dims_positive_witness :
    sessionDimsPositive (execLoop none [Event.resumed goodEnv]) :=
  c8_config_dims_positive [Event.resumed goodEnv] (by
    intro env hm
    rw [List.mem_singleton] at hm
    injection hm with h
    subst h
    exact ⟨by decide, by decide⟩)

/-- Counterexample to C8 as stated: a session whose stored configuration
has width 0 is reachable — one `Resumed` event whose window reports inner
size 0 x 600 — because the initial configuration copies the window's
physical size without the zero check that resizes get. -/
theorem c8_counterexample :
    execLoop none [Event.resumed zeroWidthEnv] = some zeroWidthSession
    ∧ ¬ 0 < zeroWidthSession.config.width :=
  ⟨rfl, by decide⟩

/-- Counterexample to C9 as stated: when the icon asset fails to decode,
the `.expect("Couldn't load icon")` inside the window-builder closure
aborts construction, so the resume event ends in a process abort instead
of a session — a failed icon load does abort the core lifecycle. -/
theorem c9_counterexample :
    State.new iconFailEnv = .error .iconLoadFailed
    ∧ handleEvent none (Event.resumed iconFailEnv) =
        StepResult.aborted InitError.iconLoadFailed :=
  ⟨rfl, rfl⟩

/-- C9 (amended): an absent icon never aborts the lifecycle — building
with no icon behaves exactly as building with a successfully decoded one —
but a failed icon decode or RGBA conversion aborts construction before
any session exists. -/
theorem c9_icon_outcomes (env : Env) :
    (env.icon = .absent →
      State.new env = State.new { env with icon := IconOutcome.decoded })
    ∧ (env.icon = .decodeFailed ∨ env.icon = .fromRgbaFailed →
      State.new env = .error .iconLoadFailed
      ∧ handleEvent none (Event.resumed env) =
          StepResult.aborted InitError.iconLoadFailed) := by
  constructor
  · intro h
    simp [State.new, loadIcon, h]
  · rintro (h | h) <;> exact ⟨by simp [State.new, loadIcon, h],
      by simp [handleEvent, State.new, loadIcon, h]⟩

/-- Witness for C9 (amended): the absent-icon environment constructs its
session exactly as the decoded-icon one does, and the decode-failure
environment aborts. -/
theorem c9_icon_outcomes_witness :
    State.new goodEnv = State.new { goodEnv with icon := IconOutcome.decoded }
    ∧ (State.new iconFailEnv = .error .iconLoadFailed
      ∧ handleEvent none (Event.resumed iconFailEnv) =
          StepResult.aborted InitError.iconLoadFailed) :=
  ⟨(c9_icon_outcomes goodEnv).1 rfl,
   (c9_icon_outcomes iconFailEnv).2 (Or.inl rfl)⟩

/-- C10: the surface format is entry 0 of the chosen adapter's
supported-format list with no emptiness check: if the chosen adapter
reports no formats while every earlier construction step succeeds, the
construction panics before any session exists; the fallback selection
path only ever chooses an adapter with a non-empty format list, whereas
the default-power-preference path can hand over an empty one; and
whenever the chosen adapter reports at least one format the panic cannot
occur, the stored format being exactly the first reported entry. -/
theorem c10_format_first_entry
    (env : Env) (a : Adapter) (st : Session) (calls : List GpuCall) :
    (env.icon = .absent → env.windowOk = true → env.deviceOk = true →
      selectAdapter env.inst = some a → a.supportedFormats = [] →
      State.new env = .error .formatIndexOutOfBounds)
    ∧ (env.inst.defaultAdapter = none → selectAdapter env.inst = some a →
      a.supportedFormats ≠ [])
    ∧ (selectAdapter env.inst = some a → a.supportedFormats ≠ [] →
      State.new env ≠ .error .formatIndexOutOfBounds)
    ∧ (State.new env = .ok (st, calls) → selectAdapter env.inst = some a →
      a.supportedFormats.head? = some st.config.format)
    ∧ (∃ e : Env, e.inst.defaultAdapter ≠ none
        ∧ State.new e = .error .formatIndexOutOfBounds) := by
  refine ⟨?_, ?_, ?_, ?_, ⟨defaultTrapEnv, by decide, rfl⟩⟩
  · intro hicon hw hd hsel hempty
    simp [State.new, loadIcon, hicon, hw, hd, hsel, hempty]
  · intro hnone hsel
    rw [selectAdapter, hnone, head?_filter_eq_find?] at hsel
    have hp := List.find?_some hsel
    simpa using hp
  · intro hsel hne hbad
    unfold State.new at hbad
    rw [hsel] at hbad
    cases hI : loadIcon env.icon <;> rw [hI] at hbad
    · simp at hbad
      subst hbad
      cases hicon : env.icon <;> rw [hicon] at hI <;> simp [loadIcon] at hI
    · cases hw : env.windowOk <;> simp only [hw, Bool.false_eq_true,
        if_false, if_true, reduceIte] at hbad
      · simp at hbad
      · cases hd : env.deviceOk <;> simp only [hd, Bool.false_eq_true,
          if_false, if_true, reduceIte] at hbad
        · simp at hbad
        · cases hF : a.supportedFormats.head? <;> rw [hF] at hbad
          · exact hne (List.head?_eq_none_iff.mp hF)
          · simp at hbad
  · intro hok hsel
    obtain ⟨ad, fmt, hA, hF, hst, -⟩ := State.new_ok_inv env st calls hok
    rw [hsel] at hA
    cases hA
    subst hst
    simpa using hF

/-- Witness for C10: the empty-format default adapter panics the
construction, the fallback-selected adapter has formats, the good
environment avoids the panic, and the stored format of the good session
is the first reported entry. -/
theorem c10_format_first_entry_witness :
    State.new defaultTrapEnv = .error .formatIndexOutOfBounds
    ∧ goodAdapter.supportedFormats ≠ []
    ∧ State.new goodEnv ≠ .error .formatIndexOutOfBounds
    ∧ goodAdapter.supportedFormats.head? = some goodSession.config.format :=
  ⟨(c10_format_first_entry defaultTrapEnv emptyAdapter goodSession []).1
      rfl rfl rfl (by decide) rfl,
   (c10_format_first_entry fallbackEnv goodAdapter goodSession []).2.1
      rfl (by decide),
   (c10_format_first_entry goodEnv goodAdapter goodSession []).2.2.1
      (by decide) (by decide),
   (c10_format_first_entry goodEnv goodAdapter goodSession
      [GpuCall.configure goodConfig]).2.2.2.1 (by rfl) (by decide)⟩

end And
